import Mathlib

/-!
Shallow embedding of the Piped deployment agent's executor registry
(pkg/app/piped/executor/registry.go) and piped configuration
(pkg/config/piped.go), with theorems settling the specification claims.
-/

set_option autoImplicit false

namespace PipeSpec

/-! ## Executor registry (pkg/app/piped/executor/registry.go)

`model.Stage` is a string-typed stage kind.  A Go `map[model.Stage]Factory`
is embedded as `Option (List (Stage × F))`: `none` is Go's nil map (reads
find nothing, writes panic), `some m` is an allocated map represented as an
association list. -/

/-- Embeds `model.Stage`, a string-typed stage kind. -/
abbrev Stage := String

/-- The `registry` struct of registry.go, generic over the `Factory` type
(in the source, `Factory = func(Input) Executor`).  `factories = none`
models a Go nil map. -/
structure RegistryState (F : Type) where
  factories : Option (List (Stage × F))

/-- Outcome of `registry.Register`: a Go panic (assignment to an entry in a
nil map), or normal return of the updated receiver and the error value. -/
inductive RegisterResult (F : Type) where
  | panicked
  | done (r : RegistryState F) (err : Option String)

/-- Embeds `registry.Register` (registry.go lines 34-43): error if the stage is
already present, otherwise insert.  Reading a nil map yields not-found;
the subsequent assignment `r.factories[stage] = f` on a nil map panics. -/
def registryRegister {F : Type} (r : RegistryState F) (stage : Stage) (f : F) :
    RegisterResult F :=
  match r.factories with
  | none => RegisterResult.panicked
  | some m =>
    if (m.lookup stage).isSome then
      RegisterResult.done r (some ("executor for " ++ stage ++ " stage has already registered"))
    else
      RegisterResult.done ⟨some (m ++ [(stage, f)])⟩ none

/-- Read `r.factories[stage]`: on a nil map the lookup reports not-found. -/
def RegistryState.find? {F : Type} (r : RegistryState F) (stage : Stage) : Option F :=
  match r.factories with
  | none => none
  | some m => m.lookup stage

/-- Embeds `registry.Executor` (registry.go lines 45-53): look up the factory for
the stage and apply it to the input.  The receiver is returned unchanged,
mirroring that the method only reads the map. -/
def registryExecutor {I E : Type} (r : RegistryState (I → E)) (stage : Stage) (inp : I) :
    RegistryState (I → E) × Except String E :=
  match r.find? stage with
  | none => (r, Except.error ("no registered executor for stage " ++ stage))
  | some f => (r, Except.ok (f inp))

/-- Embeds `var defaultRegistry = &registry{}` (registry.go line 55): the zero
value of `registry`, whose `factories` map is nil. -/
def defaultRegistry {F : Type} : RegistryState F := ⟨none⟩

/-! ## Piped configuration (pkg/config/piped.go)

Go pointers to config structs are embedded as `Option`; `config.Duration`
wraps `time.Duration`, an `int64` count of nanoseconds, embedded as `Int`
(the values involved are far from the 64-bit boundary and the code only
compares and assigns them). -/

/-- Embeds `config.Duration`: nanoseconds, as in Go's `time.Duration`. -/
abbrev Duration := Int

/-- Embeds `time.Minute` in nanoseconds. -/
def timeMinute : Duration := 60000000000

/-- Embeds `time.Minute * 5` in nanoseconds (five minutes). -/
def timeFiveMinutes : Duration := 300000000000

/-- Modelled from the spec: the `model` package (not under src/) declares
`CloudProviderType` as a string-typed enumeration; the spec's recognized
provider types are Kubernetes, Terraform, CloudRun and Lambda.  Only the
distinctness of the four tags matters to the config code. -/
abbrev CloudProviderType := String

/-- Modelled from the spec: `model.CloudProviderKubernetes`. -/
def CloudProviderKubernetes : CloudProviderType := "KUBERNETES"

/-- Modelled from the spec: `model.CloudProviderTerraform`. -/
def CloudProviderTerraform : CloudProviderType := "TERRAFORM"

/-- Modelled from the spec: `model.CloudProviderCloudRun`. -/
def CloudProviderCloudRun : CloudProviderType := "CLOUDRUN"

/-- Modelled from the spec: `model.CloudProviderLambda`. -/
def CloudProviderLambda : CloudProviderType := "LAMBDA"

/-- Modelled from the spec: `model.ImageProviderType`, a string-typed
enumeration with recognized tags Dockerhub, GCR and ECR. -/
abbrev ImageProviderType := String

/-- Modelled from the spec: `model.ImageProviderTypeDockerhub`. -/
def ImageProviderTypeDockerhub : ImageProviderType := "DOCKER_HUB"

/-- Modelled from the spec: `model.ImageProviderTypeGCR`. -/
def ImageProviderTypeGCR : ImageProviderType := "GCR"

/-- Modelled from the spec: `model.ImageProviderTypeECR`. -/
def ImageProviderTypeECR : ImageProviderType := "ECR"

/-- Modelled from the spec: `model.AnalysisProviderType`, a string-typed
enumeration. -/
abbrev AnalysisProviderType := String

/-- Modelled from the spec: `model.SealedSecretManagementType`, a
string-typed enumeration with values SEALING_KEY, GCP_KMS, AWS_KMS (the
values are listed in the comment on `SealedSecretManagement.Type`). -/
abbrev SealedSecretManagementType := String

/-- Modelled from the spec: `model.SealedSecretManagementSealingKey`. -/
def SealedSecretManagementSealingKeyType : SealedSecretManagementType := "SEALING_KEY"

/-- Modelled from the spec: `model.SealedSecretManagementGCPKMS`. -/
def SealedSecretManagementGCPKMSType : SealedSecretManagementType := "GCP_KMS"

/-- Embeds `config.PipedGit`. -/
structure PipedGit where
  Username : String
  Email : String
  SSHConfigFilePath : String
  Host : String
  HostName : String
  SSHKeyFile : String
deriving DecidableEq

/-- Embeds `config.PipedRepository`. -/
structure PipedRepository where
  RepoID : String
  Remote : String
  Branch : String
deriving DecidableEq

/-- Embeds `config.HelmChartRepository`. -/
structure HelmChartRepository where
  Name : String
  Address : String
  Username : String
  Password : String
deriving DecidableEq

/-- Embeds `config.KubernetesResourceMatcher`. -/
structure KubernetesResourceMatcher where
  APIVersion : String
  Kind : String
deriving DecidableEq

/-- Embeds `config.KubernetesAppStateInformer`. -/
structure KubernetesAppStateInformer where
  Namespace : String
  IncludeResources : List KubernetesResourceMatcher
  ExcludeResources : List KubernetesResourceMatcher
deriving DecidableEq

/-- Embeds `config.CloudProviderKubernetesConfig`. -/
structure CloudProviderKubernetesConfig where
  MasterURL : String
  KubeConfigPath : String
  AppStateInformer : KubernetesAppStateInformer
deriving DecidableEq

/-- Embeds `config.CloudProviderTerraformConfig`. -/
structure CloudProviderTerraformConfig where
  Vars : List String
deriving DecidableEq

/-- Embeds `config.CloudProviderCloudRunConfig`. -/
structure CloudProviderCloudRunConfig where
  Project : String
  Region : String
  CredentialsFile : String
deriving DecidableEq

/-- Embeds `config.CloudProviderLambdaConfig`. -/
structure CloudProviderLambdaConfig where
  Region : String
deriving DecidableEq

/-- Embeds `config.PipedCloudProvider`: the tagged union; the four config
pointers are `Option`s, at most one of which is set by unmarshalling. -/
structure PipedCloudProvider where
  Name : String
  «Type» : CloudProviderType
  KubernetesConfig : Option CloudProviderKubernetesConfig
  TerraformConfig : Option CloudProviderTerraformConfig
  CloudRunConfig : Option CloudProviderCloudRunConfig
  LambdaConfig : Option CloudProviderLambdaConfig
deriving DecidableEq

/-- The zero value of `CloudProviderKubernetesConfig` (Go `&CloudProviderKubernetesConfig{}`). -/
def zeroKubernetesConfig : CloudProviderKubernetesConfig :=
  ⟨"", "", ⟨"", [], []⟩⟩

/-- Embeds `config.DefaultKubernetesCloudProvider` (piped.go lines 25-29). -/
def DefaultKubernetesCloudProvider : PipedCloudProvider :=
  { Name := "kubernetes-default"
    «Type» := CloudProviderKubernetes
    KubernetesConfig := some zeroKubernetesConfig
    TerraformConfig := none
    CloudRunConfig := none
    LambdaConfig := none }

/-- Embeds `config.AnalysisProviderPrometheusConfig`. -/
structure AnalysisProviderPrometheusConfig where
  Address : String
  UsernameFile : String
  PasswordFile : String
deriving DecidableEq

/-- Embeds `config.AnalysisProviderDatadogConfig`. -/
structure AnalysisProviderDatadogConfig where
  Address : String
  APIKeyFile : String
  ApplicationKeyFile : String
deriving DecidableEq

/-- Embeds `config.AnalysisProviderStackdriverConfig`. -/
structure AnalysisProviderStackdriverConfig where
  ServiceAccountFile : String
deriving DecidableEq

/-- Embeds `config.PipedAnalysisProvider`. -/
structure PipedAnalysisProvider where
  Name : String
  «Type» : AnalysisProviderType
  PrometheusConfig : Option AnalysisProviderPrometheusConfig
  DatadogConfig : Option AnalysisProviderDatadogConfig
  StackdriverConfig : Option AnalysisProviderStackdriverConfig
deriving DecidableEq

/-- Embeds `config.ImageProviderDockerhubConfig`. -/
structure ImageProviderDockerhubConfig where
  Username : String
  PasswordFile : String
deriving DecidableEq

/-- Embeds `config.ImageProviderGCRConfig`. -/
structure ImageProviderGCRConfig where
  Domain : String
deriving DecidableEq

/-- Embeds `config.ImageProviderECRConfig` (no fields). -/
structure ImageProviderECRConfig where
deriving DecidableEq

/-- Embeds `config.PipedImageProvider`. -/
structure PipedImageProvider where
  Name : String
  «Type» : ImageProviderType
  PullInterval : Duration
  DockerhubConfig : Option ImageProviderDockerhubConfig
  GCRConfig : Option ImageProviderGCRConfig
  ECRConfig : Option ImageProviderECRConfig
deriving DecidableEq

/-- Embeds `config.NotificationRoute`. -/
structure NotificationRoute where
  Name : String
  Receiver : String
  Events : List String
  IgnoreEvents : List String
  Groups : List String
  IgnoreGroups : List String
  Apps : List String
  IgnoreApps : List String
  Envs : List String
  IgnoreEnvs : List String
deriving DecidableEq

/-- Embeds `config.NotificationReceiverSlack`. -/
structure NotificationReceiverSlack where
  HookURL : String
deriving DecidableEq

/-- Embeds `config.NotificationReceiverWebhook`. -/
structure NotificationReceiverWebhook where
  URL : String
deriving DecidableEq

/-- Embeds `config.NotificationReceiver`. -/
structure NotificationReceiver where
  Name : String
  Slack : Option NotificationReceiverSlack
  Webhook : Option NotificationReceiverWebhook
deriving DecidableEq

/-- Embeds `config.Notifications`. -/
structure Notifications where
  Routes : List NotificationRoute
  Receivers : List NotificationReceiver
deriving DecidableEq

/-- Embeds `config.SealedSecretManagementSealingKey`. -/
structure SealedSecretManagementSealingKey where
  PrivateKeyFile : String
  PublicKeyFile : String
deriving DecidableEq

/-- Embeds `config.SealedSecretManagementGCPKMS`. -/
structure SealedSecretManagementGCPKMS where
  KeyName : String
  DecryptServiceAccountFile : String
  EncryptServiceAccountFile : String
deriving DecidableEq

/-- Embeds `config.SealedSecretManagement`: tagged union with two config pointers. -/
structure SealedSecretManagement where
  «Type» : SealedSecretManagementType
  SealingKeyConfig : Option SealedSecretManagementSealingKey
  GCPKMSConfig : Option SealedSecretManagementGCPKMS
deriving DecidableEq

/-- Embeds `config.PipedSpec` (piped.go lines 32-62). -/
structure PipedSpec where
  ProjectID : String
  PipedID : String
  PipedKeyFile : String
  APIAddress : String
  WebAddress : String
  SyncInterval : Duration
  Git : PipedGit
  Repositories : List PipedRepository
  ChartRepositories : List HelmChartRepository
  CloudProviders : List PipedCloudProvider
  AnalysisProviders : List PipedAnalysisProvider
  ImageProviders : List PipedImageProvider
  Notifications : Notifications
  SealedSecretManagement : Option SealedSecretManagement
deriving DecidableEq

/-! ## Validation (piped.go lines 64-90, 485-535) -/

/-- Embeds `SealedSecretManagementSealingKey.Validate` (piped.go lines 504-512). -/
def SealedSecretManagementSealingKey.Validate
    (m : SealedSecretManagementSealingKey) : Option String :=
  if m.PrivateKeyFile = "" then some "privateKeyFile must be set"
  else if m.PublicKeyFile = "" then some "publicKeyFile must be set"
  else none

/-- Embeds `SealedSecretManagementGCPKMS.Validate` (piped.go lines 524-535). -/
def SealedSecretManagementGCPKMS.Validate
    (m : SealedSecretManagementGCPKMS) : Option String :=
  if m.KeyName = "" then some "keyName must be set"
  else if m.DecryptServiceAccountFile = "" then some "decryptServiceAccountFile must be set"
  else if m.EncryptServiceAccountFile = "" then some "encryptServiceAccountFile must be set"
  else none

/-- Embeds `SealedSecretManagement.Validate` (piped.go lines 485-494).  In Go the
matched config field is a pointer; when it is nil the nested `Validate`
dereferences it and panics.  That crash outcome is embedded as an error
result (no claim distinguishes a panic from a returned error here, and the
unmarshaller always allocates the config for a recognized type). -/
def SealedSecretManagement.Validate (m : SealedSecretManagement) : Option String :=
  if m.Type = SealedSecretManagementSealingKeyType then
    match m.SealingKeyConfig with
    | some c => c.Validate
    | none => some "panic: invalid memory address or nil pointer dereference"
  else if m.Type = SealedSecretManagementGCPKMSType then
    match m.GCPKMSConfig with
    | some c => c.Validate
    | none => some "panic: invalid memory address or nil pointer dereference"
  else
    some ("unsupported sealed secret management type: " ++ m.Type)

/-- Embeds `PipedSpec.Validate` (piped.go lines 64-90).  The Go method mutates its
receiver (the `SyncInterval` default) and returns an error; it is embedded
as a function returning the updated spec together with the error value.
Note the source resets `SyncInterval` only when it is strictly negative,
and does so before validating `SealedSecretManagement`. -/
def PipedSpec.Validate (s : PipedSpec) : PipedSpec × Option String :=
  if s.ProjectID = "" then (s, some "projectID must be set")
  else if s.PipedID = "" then (s, some "pipedID must be set")
  else if s.PipedKeyFile = "" then (s, some "pipedKeyFile must be set")
  else if s.APIAddress = "" then (s, some "apiAddress must be set")
  else if s.WebAddress = "" then (s, some "webAddress must be set")
  else
    let s := if s.SyncInterval < 0 then { s with SyncInterval := timeMinute } else s
    match s.SealedSecretManagement with
    | some m =>
      match m.Validate with
      | some e => (s, some e)
      | none => (s, none)
    | none => (s, none)

/-! ## Cloud-provider helpers (piped.go lines 92-128) -/

/-- Embeds `PipedSpec.EnableDefaultKubernetesCloudProvider` (piped.go lines 92-100):
append the default kubernetes provider unless a provider with its name is
already present. -/
def PipedSpec.EnableDefaultKubernetesCloudProvider (s : PipedSpec) : PipedSpec :=
  if s.CloudProviders.any fun cp => cp.Name = DefaultKubernetesCloudProvider.Name then s
  else { s with CloudProviders := s.CloudProviders ++ [DefaultKubernetesCloudProvider] }

/-- The loop body of `PipedSpec.HasCloudProvider` (piped.go lines 102-114),
over the provider list: skip on name mismatch, skip on type mismatch,
return true on the first full match. -/
def hasCloudProviderIn : List PipedCloudProvider → String → CloudProviderType → Bool
  | [], _, _ => false
  | cp :: rest, name, t =>
    if cp.Name ≠ name then hasCloudProviderIn rest name t
    else if cp.Type ≠ t then hasCloudProviderIn rest name t
    else true

/-- Embeds `PipedSpec.HasCloudProvider` (piped.go lines 102-114). -/
def PipedSpec.HasCloudProvider (s : PipedSpec) (name : String) (t : CloudProviderType) : Bool :=
  hasCloudProviderIn s.CloudProviders name t

/-- The zero value `PipedCloudProvider{}` returned by `FindCloudProvider`
when nothing matches. -/
def zeroPipedCloudProvider : PipedCloudProvider :=
  { Name := "", «Type» := "", KubernetesConfig := none, TerraformConfig := none
    CloudRunConfig := none, LambdaConfig := none }

/-- The loop body of `PipedSpec.FindCloudProvider` (piped.go lines 116-128):
return the first provider matching both name and type, with a found flag. -/
def findCloudProviderIn : List PipedCloudProvider → String → CloudProviderType →
    PipedCloudProvider × Bool
  | [], _, _ => (zeroPipedCloudProvider, false)
  | p :: rest, name, t =>
    if p.Name ≠ name then findCloudProviderIn rest name t
    else if p.Type ≠ t then findCloudProviderIn rest name t
    else (p, true)

/-- Embeds `PipedSpec.FindCloudProvider` (piped.go lines 116-128). -/
def PipedSpec.FindCloudProvider (s : PipedSpec) (name : String) (t : CloudProviderType) :
    PipedCloudProvider × Bool :=
  findCloudProviderIn s.CloudProviders name t

/-! ## Tagged-union unmarshalling (piped.go lines 216-256, 387-428)

`UnmarshalJSON` first decodes the document into a generic struct whose
`config` member stays raw (`json.RawMessage`, a byte slice embedded as
`String`), then switches on the `type` tag.  The embedding starts from the
decoded generic struct; the inner `json.Unmarshal` of the raw config into
the selected concrete schema is passed in as a decoder function, since JSON
byte-level decoding is outside the modelled code.  Go's receiver keeps the
fields assigned before an error; the embedding likewise returns the
assembled value alongside the error, with a failed inner decode leaving the
freshly allocated zero config in place. -/

/-- Embeds `config.genericPipedCloudProvider` (piped.go lines 216-220). -/
structure genericPipedCloudProvider where
  Name : String
  «Type» : CloudProviderType
  Config : String
deriving DecidableEq

/-- Embeds `PipedCloudProvider.UnmarshalJSON` (piped.go lines 222-256), from the
decoded generic struct.  `decodeK`/`decodeT`/`decodeC`/`decodeL` stand for
`json.Unmarshal` into the four concrete config schemas. -/
def PipedCloudProvider.unmarshalJSON
    (decodeK : String → Except String CloudProviderKubernetesConfig)
    (decodeT : String → Except String CloudProviderTerraformConfig)
    (decodeC : String → Except String CloudProviderCloudRunConfig)
    (decodeL : String → Except String CloudProviderLambdaConfig)
    (gp : genericPipedCloudProvider) : PipedCloudProvider × Option String :=
  let p : PipedCloudProvider :=
    { Name := gp.Name, «Type» := gp.Type, KubernetesConfig := none
      TerraformConfig := none, CloudRunConfig := none, LambdaConfig := none }
  if gp.Type = CloudProviderKubernetes then
    if gp.Config.length > 0 then
      match decodeK gp.Config with
      | Except.ok c => ({ p with KubernetesConfig := some c }, none)
      | Except.error e => ({ p with KubernetesConfig := some zeroKubernetesConfig }, some e)
    else ({ p with KubernetesConfig := some zeroKubernetesConfig }, none)
  else if gp.Type = CloudProviderTerraform then
    if gp.Config.length > 0 then
      match decodeT gp.Config with
      | Except.ok c => ({ p with TerraformConfig := some c }, none)
      | Except.error e => ({ p with TerraformConfig := some ⟨[]⟩ }, some e)
    else ({ p with TerraformConfig := some ⟨[]⟩ }, none)
  else if gp.Type = CloudProviderCloudRun then
    if gp.Config.length > 0 then
      match decodeC gp.Config with
      | Except.ok c => ({ p with CloudRunConfig := some c }, none)
      | Except.error e => ({ p with CloudRunConfig := some ⟨"", "", ""⟩ }, some e)
    else ({ p with CloudRunConfig := some ⟨"", "", ""⟩ }, none)
  else if gp.Type = CloudProviderLambda then
    if gp.Config.length > 0 then
      match decodeL gp.Config with
      | Except.ok c => ({ p with LambdaConfig := some c }, none)
      | Except.error e => ({ p with LambdaConfig := some ⟨""⟩ }, some e)
    else ({ p with LambdaConfig := some ⟨""⟩ }, none)
  else
    (p, some ("unsupported cloud provider type: " ++ p.Name))

/-- Embeds `config.genericPipedImageProvider` (piped.go lines 387-393). -/
structure genericPipedImageProvider where
  Name : String
  «Type» : ImageProviderType
  PullInterval : Duration
  Config : String
deriving DecidableEq

/-- Embeds `PipedImageProvider.UnmarshalJSON` (piped.go lines 395-428), from the
decoded generic struct.  `PullInterval` defaults to five minutes when the
decoded value is zero, before the switch on the `type` tag. -/
def PipedImageProvider.unmarshalJSON
    (decodeD : String → Except String ImageProviderDockerhubConfig)
    (decodeG : String → Except String ImageProviderGCRConfig)
    (decodeE : String → Except String ImageProviderECRConfig)
    (gp : genericPipedImageProvider) : PipedImageProvider × Option String :=
  let pull : Duration := if gp.PullInterval = 0 then timeFiveMinutes else gp.PullInterval
  let p : PipedImageProvider :=
    { Name := gp.Name, «Type» := gp.Type, PullInterval := pull
      DockerhubConfig := none, GCRConfig := none, ECRConfig := none }
  if gp.Type = ImageProviderTypeDockerhub then
    if gp.Config.length > 0 then
      match decodeD gp.Config with
      | Except.ok c => ({ p with DockerhubConfig := some c }, none)
      | Except.error e => ({ p with DockerhubConfig := some ⟨"", ""⟩ }, some e)
    else ({ p with DockerhubConfig := some ⟨"", ""⟩ }, none)
  else if gp.Type = ImageProviderTypeGCR then
    if gp.Config.length > 0 then
      match decodeG gp.Config with
      | Except.ok c => ({ p with GCRConfig := some c }, none)
      | Except.error e => ({ p with GCRConfig := some ⟨""⟩ }, some e)
    else ({ p with GCRConfig := some ⟨""⟩ }, none)
  else if gp.Type = ImageProviderTypeECR then
    if gp.Config.length > 0 then
      match decodeE gp.Config with
      | Except.ok c => ({ p with ECRConfig := some c }, none)
      | Except.error e => ({ p with ECRConfig := some ⟨⟩ }, some e)
    else ({ p with ECRConfig := some ⟨⟩ }, none)
  else
    (p, some ("unsupported image provider type: " ++ p.Name))

/-! ## Theorems about the executor registry -/

/-- C1: the claim says `Register(k, f)` on `DefaultRegistry()` returns no
error and a subsequent `Executor(k, i)` returns `f(i)`.  The code disagrees:
`defaultRegistry` is the zero value `&registry{}`, whose `factories` map is
nil, so the assignment `r.factories[stage] = f` inside `Register` panics for
every stage kind and factory — nothing can ever be registered in the default
registry. -/
theorem register_on_default_registry_panics (F : Type) (stage : Stage) (f : F) :
    registryRegister (@defaultRegistry F) stage f = RegisterResult.panicked := rfl

/-- C2: in any registry state where the stage kind is already bound to some
factory, a second `Register` with any factory returns the already-registered
error and returns with the receiver — including the existing binding —
unchanged. -/
theorem register_duplicate_errors_and_preserves {F : Type} (r : RegistryState F)
    (stage : Stage) (f0 f' : F) (hb : r.find? stage = some f0) :
    registryRegister r stage f' =
      RegisterResult.done r
        (some ("executor for " ++ stage ++ " stage has already registered")) := by
  rcases r with ⟨_ | m⟩
  · simp [RegistryState.find?] at hb
  · simp only [RegistryState.find?] at hb
    simp [registryRegister, hb]

/-- Witness for C2 at a concrete registry binding stage "WAIT". -/
theorem register_duplicate_errors_and_preserves_witness :
    (RegistryState.find? (⟨some [("WAIT", 3)]⟩ : RegistryState Nat) "WAIT" = some 3) ∧
    registryRegister (⟨some [("WAIT", 3)]⟩ : RegistryState Nat) "WAIT" 4 =
      RegisterResult.done ⟨some [("WAIT", 3)]⟩
        (some "executor for WAIT stage has already registered") :=
  ⟨by decide, register_duplicate_errors_and_preserves ⟨some [("WAIT", 3)]⟩ "WAIT" 3 4 (by decide)⟩

/-- C3: in any registry state with no factory bound for the stage kind,
`Executor` returns the unknown-stage error for every input, and the registry
state it hands back is the receiver unchanged. -/
theorem executor_unknown_stage_errors {I E : Type} (r : RegistryState (I → E))
    (stage : Stage) (i : I) (h : r.find? stage = none) :
    registryExecutor r stage i =
      (r, Except.error ("no registered executor for stage " ++ stage)) := by
  simp [registryExecutor, h]

/-- Witness for C3 at the empty (allocated) registry and stage "WAIT". -/
theorem executor_unknown_stage_errors_witness :
    (RegistryState.find? (⟨some []⟩ : RegistryState (Nat → Nat)) "WAIT" = none) ∧
    registryExecutor (⟨some []⟩ : RegistryState (Nat → Nat)) "WAIT" 0 =
      (⟨some []⟩, Except.error "no registered executor for stage WAIT") :=
  ⟨rfl, executor_unknown_stage_errors ⟨some []⟩ "WAIT" 0 rfl⟩

/-! ## Theorems about tagged-union unmarshalling -/

/-- C4: for any generic cloud-provider document whose `type` tag is outside
the recognized set {Kubernetes, Terraform, CloudRun, Lambda}, and any
generic image-provider document whose `type` tag is outside
{Dockerhub, GCR, ECR}, unmarshalling returns an error (the source formats
the cloud/image-provider message with the document's name), for every
choice of concrete-config decoders. -/
theorem unmarshal_unknown_type_errors
    (decodeK : String → Except String CloudProviderKubernetesConfig)
    (decodeT : String → Except String CloudProviderTerraformConfig)
    (decodeC : String → Except String CloudProviderCloudRunConfig)
    (decodeL : String → Except String CloudProviderLambdaConfig)
    (decodeD : String → Except String ImageProviderDockerhubConfig)
    (decodeG : String → Except String ImageProviderGCRConfig)
    (decodeE : String → Except String ImageProviderECRConfig)
    (gpc : genericPipedCloudProvider) (gpi : genericPipedImageProvider)
    (hc1 : gpc.Type ≠ CloudProviderKubernetes) (hc2 : gpc.Type ≠ CloudProviderTerraform)
    (hc3 : gpc.Type ≠ CloudProviderCloudRun) (hc4 : gpc.Type ≠ CloudProviderLambda)
    (hi1 : gpi.Type ≠ ImageProviderTypeDockerhub) (hi2 : gpi.Type ≠ ImageProviderTypeGCR)
    (hi3 : gpi.Type ≠ ImageProviderTypeECR) :
    (PipedCloudProvider.unmarshalJSON decodeK decodeT decodeC decodeL gpc).2 =
      some ("unsupported cloud provider type: " ++ gpc.Name) ∧
    (PipedImageProvider.unmarshalJSON decodeD decodeG decodeE gpi).2 =
      some ("unsupported image provider type: " ++ gpi.Name) := by
  constructor
  · simp [PipedCloudProvider.unmarshalJSON, hc1, hc2, hc3, hc4]
  · simp [PipedImageProvider.unmarshalJSON, hi1, hi2, hi3]

/-- A concrete decoder for witnesses: always succeeds with the zero value. -/
def okDecodeK : String → Except String CloudProviderKubernetesConfig :=
  fun _ => Except.ok zeroKubernetesConfig

/-- A concrete decoder for witnesses: always succeeds with the zero value. -/
def okDecodeT : String → Except String CloudProviderTerraformConfig :=
  fun _ => Except.ok ⟨[]⟩

/-- A concrete decoder for witnesses: always succeeds with the zero value. -/
def okDecodeC : String → Except String CloudProviderCloudRunConfig :=
  fun _ => Except.ok ⟨"", "", ""⟩

/-- A concrete decoder for witnesses: always succeeds with the zero value. -/
def okDecodeL : String → Except String CloudProviderLambdaConfig :=
  fun _ => Except.ok ⟨""⟩

/-- A concrete decoder for witnesses: always succeeds with the zero value. -/
def okDecodeD : String → Except String ImageProviderDockerhubConfig :=
  fun _ => Except.ok ⟨"", ""⟩

/-- A concrete decoder for witnesses: always succeeds with the zero value. -/
def okDecodeG : String → Except String ImageProviderGCRConfig :=
  fun _ => Except.ok ⟨""⟩

/-- A concrete decoder for witnesses: always succeeds with the zero value. -/
def okDecodeE : String → Except String ImageProviderECRConfig :=
  fun _ => Except.ok ⟨⟩

/-- Witness for C4 at documents whose `type` tag is "FOO". -/
theorem unmarshal_unknown_type_errors_witness :
    (("FOO" : String) ≠ CloudProviderKubernetes ∧ ("FOO" : String) ≠ CloudProviderTerraform ∧
     ("FOO" : String) ≠ CloudProviderCloudRun ∧ ("FOO" : String) ≠ CloudProviderLambda ∧
     ("FOO" : String) ≠ ImageProviderTypeDockerhub ∧ ("FOO" : String) ≠ ImageProviderTypeGCR ∧
     ("FOO" : String) ≠ ImageProviderTypeECR) ∧
    (PipedCloudProvider.unmarshalJSON okDecodeK okDecodeT okDecodeC okDecodeL
        ⟨"my-cloud", "FOO", ""⟩).2 = some "unsupported cloud provider type: my-cloud" ∧
    (PipedImageProvider.unmarshalJSON okDecodeD okDecodeG okDecodeE
        ⟨"my-image", "FOO", 0, ""⟩).2 = some "unsupported image provider type: my-image" :=
  ⟨⟨by decide, by decide, by decide, by decide, by decide, by decide, by decide⟩,
   unmarshal_unknown_type_errors okDecodeK okDecodeT okDecodeC okDecodeL
     okDecodeD okDecodeG okDecodeE ⟨"my-cloud", "FOO", ""⟩ ⟨"my-image", "FOO", 0, ""⟩
     (by decide) (by decide) (by decide) (by decide) (by decide) (by decide) (by decide)⟩

/-- C7: whatever the image-provider document's `type` tag and config, when
the decoded `pullInterval` is zero (in particular when the field is absent,
since the generic struct then keeps its zero value) the resulting provider's
`PullInterval` is five minutes, and a non-zero decoded value is kept. -/
theorem unmarshal_pull_interval_default
    (decodeD : String → Except String ImageProviderDockerhubConfig)
    (decodeG : String → Except String ImageProviderGCRConfig)
    (decodeE : String → Except String ImageProviderECRConfig)
    (gp : genericPipedImageProvider) :
    (gp.PullInterval = 0 →
      (PipedImageProvider.unmarshalJSON decodeD decodeG decodeE gp).1.PullInterval =
        timeFiveMinutes) ∧
    (gp.PullInterval ≠ 0 →
      (PipedImageProvider.unmarshalJSON decodeD decodeG decodeE gp).1.PullInterval =
        gp.PullInterval) := by
  have h : (PipedImageProvider.unmarshalJSON decodeD decodeG decodeE gp).1.PullInterval =
      (if gp.PullInterval = 0 then timeFiveMinutes else gp.PullInterval) := by
    simp only [PipedImageProvider.unmarshalJSON]
    repeat' split
    all_goals rfl
  constructor
  · intro hz
    rw [h, if_pos hz]
  · intro hnz
    rw [h, if_neg hnz]

/-- Witness for C7 at a zero and a non-zero `pullInterval`. -/
theorem unmarshal_pull_interval_default_witness :
    ((0 : Duration) = 0 ∧
     (PipedImageProvider.unmarshalJSON okDecodeD okDecodeG okDecodeE
        ⟨"img", "GCR", 0, ""⟩).1.PullInterval = timeFiveMinutes) ∧
    ((7 : Duration) ≠ 0 ∧
     (PipedImageProvider.unmarshalJSON okDecodeD okDecodeG okDecodeE
        ⟨"img", "GCR", 7, ""⟩).1.PullInterval = 7) :=
  ⟨⟨rfl, (unmarshal_pull_interval_default okDecodeD okDecodeG okDecodeE
      ⟨"img", "GCR", 0, ""⟩).1 (by decide)⟩,
   ⟨by decide, (unmarshal_pull_interval_default okDecodeD okDecodeG okDecodeE
      ⟨"img", "GCR", 7, ""⟩).2 (by decide)⟩⟩

/-! ## Theorems about PipedSpec.Validate -/

/-- A concrete, fully-populated piped spec used by witnesses and
counterexamples: all required fields non-empty, everything else empty. -/
def baseSpec : PipedSpec :=
  { ProjectID := "proj", PipedID := "piped-1", PipedKeyFile := "/etc/piped/key"
    APIAddress := "api:443", WebAddress := "web:443", SyncInterval := 0
    Git := ⟨"", "", "", "", "", ""⟩, Repositories := [], ChartRepositories := []
    CloudProviders := [], AnalysisProviders := [], ImageProviders := []
    Notifications := ⟨[], []⟩, SealedSecretManagement := none }

/-- C5: `PipedSpec.Validate` succeeds exactly when the five required string
fields are non-empty and the sealed-secret management, when present, itself
validates. -/
theorem validate_error_conditions (s : PipedSpec) :
    (PipedSpec.Validate s).2 = none ↔
      (s.ProjectID ≠ "" ∧ s.PipedID ≠ "" ∧ s.PipedKeyFile ≠ "" ∧
       s.APIAddress ≠ "" ∧ s.WebAddress ≠ "" ∧
       ∀ m, s.SealedSecretManagement = some m →
         SealedSecretManagement.Validate m = none) := by
  simp only [PipedSpec.Validate]
  split_ifs with h1 h2 h3 h4 h5 h6 <;>
    rcases hssm : s.SealedSecretManagement with _ | m <;>
      simp_all <;>
        rcases hv : SealedSecretManagement.Validate m with _ | e <;> simp_all

/-- C6 counterexample: the claim says a zero (unset) `SyncInterval` becomes
one minute after a successful `Validate`; in the source the reset guard is
`s.SyncInterval < 0`, so zero is left at zero.  Concretely, `baseSpec` has
`SyncInterval = 0`, validates successfully, and keeps `SyncInterval = 0`. -/
theorem validate_keeps_zero_sync_interval :
    baseSpec.SyncInterval = 0 ∧ (PipedSpec.Validate baseSpec).2 = none ∧
      (PipedSpec.Validate baseSpec).1.SyncInterval ≠ timeMinute := by decide

/-- C6 as amended: only a negative `SyncInterval` is replaced, by one
minute (60 seconds), on a successful `Validate`. -/
theorem validate_defaults_negative_sync_interval (s : PipedSpec)
    (hok : (PipedSpec.Validate s).2 = none) (hneg : s.SyncInterval < 0) :
    (PipedSpec.Validate s).1.SyncInterval = timeMinute := by
  simp only [PipedSpec.Validate] at *
  split_ifs at * with h1 h2 h3 h4 h5
  simp_all
  rcases hssm : s.SealedSecretManagement with _ | m <;> simp_all
  rcases hv : SealedSecretManagement.Validate m with _ | e <;> simp_all

/-- Witness for the amended C6 at a spec with `SyncInterval = -1`. -/
theorem validate_defaults_negative_sync_interval_witness :
    (PipedSpec.Validate { baseSpec with SyncInterval := -1 }).2 = none ∧
    ({ baseSpec with SyncInterval := -1 } : PipedSpec).SyncInterval < 0 ∧
    (PipedSpec.Validate { baseSpec with SyncInterval := -1 }).1.SyncInterval = timeMinute :=
  ⟨by decide, by decide,
   validate_defaults_negative_sync_interval { baseSpec with SyncInterval := -1 }
     (by decide) (by decide)⟩

/-- C10: `Validate` either returns its receiver unchanged, or — only when
the incoming `SyncInterval` was negative — returns the receiver with
exactly the `SyncInterval` field replaced by one minute; every other field
is unchanged in both cases, whether an error is returned or not. -/
theorem validate_frame (s : PipedSpec) :
    (PipedSpec.Validate s).1 = s ∨
      (s.SyncInterval < 0 ∧
        (PipedSpec.Validate s).1 = { s with SyncInterval := timeMinute }) := by
  simp only [PipedSpec.Validate]
  split_ifs with h1 h2 h3 h4 h5 h6 <;>
    try (left; rfl)
  · right
    refine ⟨h6, ?_⟩
    rcases hssm : s.SealedSecretManagement with _ | m <;> simp_all
    rcases hv : SealedSecretManagement.Validate m with _ | e <;> simp_all
  · left
    rcases hssm : s.SealedSecretManagement with _ | m <;> simp_all
    rcases hv : SealedSecretManagement.Validate m with _ | e <;> simp_all

/-! ## Theorems about the cloud-provider helpers -/

/-- A spec that already lists the default kubernetes provider twice; legal,
since nothing validates name uniqueness of `cloudProviders`. -/
def dupSpec : PipedSpec :=
  { baseSpec with
    CloudProviders := [DefaultKubernetesCloudProvider, DefaultKubernetesCloudProvider] }

/-- C8 counterexample: the claim says that after one application of
`EnableDefaultKubernetesCloudProvider` the list contains exactly one
provider named "kubernetes-default".  On a spec that already lists two
providers with that name the function returns early and both stay. -/
theorem enable_default_not_exactly_one :
    List.countP (fun p => p.Name = DefaultKubernetesCloudProvider.Name)
      dupSpec.EnableDefaultKubernetesCloudProvider.CloudProviders ≠ 1 := by decide

/-- C8 as amended: `EnableDefaultKubernetesCloudProvider` is idempotent;
after one application the list contains at least one provider named
"kubernetes-default" (exactly one only when the input had no duplicates of
that name); and a spec already containing a provider with that name is
returned unchanged. -/
theorem enable_default_idempotent (s : PipedSpec) :
    s.EnableDefaultKubernetesCloudProvider.EnableDefaultKubernetesCloudProvider =
      s.EnableDefaultKubernetesCloudProvider ∧
    0 < List.countP (fun p => p.Name = DefaultKubernetesCloudProvider.Name)
      s.EnableDefaultKubernetesCloudProvider.CloudProviders ∧
    ((s.CloudProviders.any fun cp => cp.Name = DefaultKubernetesCloudProvider.Name) = true →
      s.EnableDefaultKubernetesCloudProvider = s) := by
  have hfix : ∀ t : PipedSpec,
      (t.CloudProviders.any fun cp => cp.Name = DefaultKubernetesCloudProvider.Name) = true →
      t.EnableDefaultKubernetesCloudProvider = t := by
    intro t ht
    simp [PipedSpec.EnableDefaultKubernetesCloudProvider, ht]
  have hpresent : (s.EnableDefaultKubernetesCloudProvider.CloudProviders.any
      fun cp => cp.Name = DefaultKubernetesCloudProvider.Name) = true := by
    by_cases h :
        (s.CloudProviders.any fun cp => cp.Name = DefaultKubernetesCloudProvider.Name) = true
    · rw [hfix s h]
      exact h
    · simp only [PipedSpec.EnableDefaultKubernetesCloudProvider]
      rw [if_neg h]
      simp
  refine ⟨hfix _ hpresent, ?_, hfix s⟩
  rcases List.any_eq_true.mp hpresent with ⟨p, hp, hname⟩
  exact List.countP_pos_iff.mpr ⟨p, hp, hname⟩

/-- Witness for the amended C8: `dupSpec` already names the default
provider, so enabling it changes nothing. -/
theorem enable_default_idempotent_witness :
    (dupSpec.CloudProviders.any fun cp => cp.Name = DefaultKubernetesCloudProvider.Name)
      = true ∧
    dupSpec.EnableDefaultKubernetesCloudProvider = dupSpec :=
  ⟨by decide, (enable_default_idempotent dupSpec).2.2 (by decide)⟩

/-- The agreement of the two lookup loops over any provider list: both
report the same found flag, and when found, the result is the first list
element matching both name and type. -/
theorem findCloudProviderIn_spec (l : List PipedCloudProvider) (n : String)
    (t : CloudProviderType) :
    hasCloudProviderIn l n t = (findCloudProviderIn l n t).2 ∧
    ((findCloudProviderIn l n t).2 = true →
      l.find? (fun p => p.Name = n ∧ p.Type = t) = some (findCloudProviderIn l n t).1) := by
  induction l with
  | nil => simp [hasCloudProviderIn, findCloudProviderIn]
  | cons p rest ih =>
    by_cases hn : p.Name = n
    · by_cases ht : p.Type = t
      · simp [hasCloudProviderIn, findCloudProviderIn, hn, ht]
      · simpa [hasCloudProviderIn, findCloudProviderIn, hn, ht] using ih
    · simpa [hasCloudProviderIn, findCloudProviderIn, hn] using ih

/-- C9: `HasCloudProvider` returns true exactly when `FindCloudProvider`
reports found, and in that case the returned provider is the first element
of `CloudProviders` matching both the name and the type. -/
theorem has_iff_find_cloud_provider (s : PipedSpec) (n : String) (t : CloudProviderType) :
    s.HasCloudProvider n t = (s.FindCloudProvider n t).2 ∧
    ((s.FindCloudProvider n t).2 = true →
      s.CloudProviders.find? (fun p => p.Name = n ∧ p.Type = t) =
        some (s.FindCloudProvider n t).1) :=
  findCloudProviderIn_spec s.CloudProviders n t

/-- Witness for C9 at a list with a distractor before the match. -/
theorem has_iff_find_cloud_provider_witness :
    (dupSpec.FindCloudProvider "kubernetes-default" CloudProviderKubernetes).2 = true ∧
    dupSpec.CloudProviders.find?
        (fun p => p.Name = "kubernetes-default" ∧ p.Type = CloudProviderKubernetes) =
      some (dupSpec.FindCloudProvider "kubernetes-default" CloudProviderKubernetes).1 :=
  ⟨by decide,
   (has_iff_find_cloud_provider dupSpec "kubernetes-default" CloudProviderKubernetes).2
     (by decide)⟩

end PipeSpec
